import Mathlib

/-!
Shallow embedding of the pypoint Minut Point API client
(src/pypoint/__init__.py and src/pypoint/auth.py).

JSON payloads decoded by the transport are modelled by `JVal`.
Python runtime behaviour relevant to the session code is modelled
explicitly: truthiness, `d.get(k)` versus `d[k]` subscripting
(AttributeError / KeyError / TypeError), iteration, dict construction
with insertion order and key overwrite, and `in` membership.
Each session operation becomes a pure function from a transport oracle
and a session state to (new state,) the list of HTTP requests it issued
and an `Except PyErr` result, where `.error` models an uncaught Python
exception escaping the call.
-/

/-- A decoded JSON value (result of `response.json()`), also used for the
Python objects (`None`, dicts, lists, strings, ...) the session stores. -/
inductive JVal where
  | null
  | bool (b : Bool)
  | num (n : Int)
  | str (s : String)
  | arr (xs : List JVal)
  | obj (kvs : List (String × JVal))

/-- Python exceptions that the modelled code can raise or swallow. -/
inductive PyErr where
  | clientResponseError
  | timeoutError
  | typeError
  | keyError
  | indexError
  | attributeError
  | exception (msg : String)
  deriving DecidableEq, Repr

mutual

/-- Python `==` on JSON-shaped values: structural equality, `False` across
different types (the bool/int coercion of CPython is not modelled; no JSON
payload in the claims mixes bools and numbers as dict keys). -/
def jEq : JVal → JVal → Bool
  | .null, .null => true
  | .bool a, .bool b => a == b
  | .num a, .num b => a == b
  | .str a, .str b => a == b
  | .arr xs, .arr ys => jEqList xs ys
  | .obj xs, .obj ys => jEqObj xs ys
  | _, _ => false

def jEqList : List JVal → List JVal → Bool
  | [], [] => true
  | x :: xs, y :: ys => jEq x y && jEqList xs ys
  | _, _ => false

def jEqObj : List (String × JVal) → List (String × JVal) → Bool
  | [], [] => true
  | (k, v) :: xs, (l, w) :: ys => k == l && jEq v w && jEqObj xs ys
  | _, _ => false

end

/-- Python truthiness of a JSON-shaped value. -/
def JVal.truthy : JVal → Bool
  | .null => false
  | .bool b => b
  | .num n => n != 0
  | .str s => !s.isEmpty
  | .arr xs => !xs.isEmpty
  | .obj kvs => !kvs.isEmpty

/-- Python `v.get(k)` (one-argument dict get, default `None`);
AttributeError on anything that is not a dict. -/
def JVal.get : JVal → String → Except PyErr JVal
  | .obj m, k => .ok ((m.lookup k).getD .null)
  | _, _ => .error .attributeError

/-- Python `v.get(k, d)` (two-argument dict get);
AttributeError on anything that is not a dict. -/
def JVal.getD : JVal → String → JVal → Except PyErr JVal
  | .obj m, k, d => .ok ((m.lookup k).getD d)
  | _, _, _ => .error .attributeError

/-- Python `v[k]` with a string key: KeyError for a dict missing the key,
TypeError for lists, strings and scalars. -/
def JVal.sub : JVal → String → Except PyErr JVal
  | .obj m, k =>
    match m.lookup k with
    | some v => .ok v
    | none => .error .keyError
  | _, _ => .error .typeError

/-- Python `v.keys()` as a list of keys; AttributeError off dicts. -/
def JVal.keys : JVal → Except PyErr (List String)
  | .obj m => .ok (m.map (fun p => p.1))
  | _ => .error .attributeError

/-- Python iteration `for x in v`: list elements, dict keys, characters of
a string; TypeError on scalars and `None`. -/
def JVal.iter : JVal → Except PyErr (List JVal)
  | .arr xs => .ok xs
  | .obj m => .ok (m.map (fun p => .str p.1))
  | .str s => .ok (s.toList.map (fun c => .str (String.mk [c])))
  | _ => .error .typeError

/-- Whether a value may be used as a Python dict key (hashable). -/
def JVal.hashable : JVal → Bool
  | .arr _ => false
  | .obj _ => false
  | _ => true

/-- Python `str(v)` for the scalar values the code interpolates into URLs
and f-strings; the textual repr of containers is abstracted (no claim
formats a container). -/
def pyStr : JVal → String
  | .str s => s
  | .num n => toString n
  | .bool true => "True"
  | .bool false => "False"
  | .null => "None"
  | .arr _ => "<list>"
  | .obj _ => "<dict>"

/-- Python `x in v` for a string `x`: dict-key membership, list membership,
substring test on strings; TypeError on scalars and `None`. -/
def pyContains (container : JVal) (x : String) : Except PyErr Bool :=
  match container with
  | .obj m => .ok (m.any (fun p => p.1 == x))
  | .arr xs => .ok (xs.any (fun v => jEq v (.str x)))
  | .str s => .ok ((s.toList.tails).any (fun t => x.toList.isPrefixOf t))
  | _ => .error .typeError

/-- Python `v[-1]`: last element of a list or string (IndexError if empty),
KeyError for a dict (JSON dict keys are strings, never `-1`),
TypeError for scalars and `None`. -/
def pyLast : JVal → Except PyErr JVal
  | .arr xs =>
    match xs.getLast? with
    | some x => .ok x
    | none => .error .indexError
  | .str s =>
    match s.toList.getLast? with
    | some c => .ok (.str (String.mk [c]))
    | none => .error .indexError
  | .obj _ => .error .keyError
  | _ => .error .typeError

/-- A Python dict whose keys may be arbitrary hashable values
(the session's `_device_state` is keyed by `device["device_id"]`).
Insertion order is kept, matching CPython dicts. -/
abbrev PyDict := List (JVal × JVal)

/-- Python `d[k] = v`: overwrite in place when the key exists, else append. -/
def pyInsert (d : PyDict) (k v : JVal) : PyDict :=
  if d.any (fun p => jEq p.1 k) then
    d.map (fun p => if jEq p.1 k then (p.1, v) else p)
  else d ++ [(k, v)]

/-- Python `d.get(k)` on a `PyDict` (first match; dicts have no duplicate
keys). -/
def pyGet? (d : PyDict) (k : JVal) : Option JVal :=
  (d.find? (fun p => jEq p.1 k)).map (fun p => p.2)

/-- Python `k in d` on a `PyDict`. -/
def pyMem (d : PyDict) (k : JVal) : Bool :=
  d.any (fun p => jEq p.1 k)

/- ---------------------------------------------------------------- -/
/- Constants from src/pypoint/__init__.py                            -/
/- ---------------------------------------------------------------- -/

def MINUT_API_URL : String := "https://api.minut.com/v8/"

def MINUT_DEVICES_URL : String := MINUT_API_URL ++ "devices"

def MINUT_USERS_URL : String := MINUT_API_URL ++ "users"

def MINUT_WEBHOOKS_URL : String := MINUT_API_URL ++ "webhooks"

def MINUT_HOMES_URL : String := MINUT_API_URL ++ "homes"

def MAP_SENSORS : List (String × String) := [("sound_pressure", "sound")]

/-- The EVENTS table: category, on-trigger name, off-trigger name,
in source order. -/
def EVENTS : List (String × String × String) :=
  [("alarm", "alarm_heard", "alarm_silenced"),
   ("battery", "battery_low", ""),
   ("button_press", "short_button_press", ""),
   ("cold", "temperature_low", "temperature_risen_normal"),
   ("connectivity", "device_online", "device_offline"),
   ("dry", "humidity_low", "humidity_risen_normal"),
   ("glass", "glassbreak", ""),
   ("heat", "temperature_high", "temperature_dropped_normal"),
   ("moisture", "humidity_high", "humidity_dropped_normal"),
   ("motion", "pir_motion", ""),
   ("noise", "disturbance_first_notice", "disturbance_ended"),
   ("sound", "avg_sound_high", "sound_level_dropped_normal"),
   ("tamper_old", "tamper", ""),
   ("tamper", "tamper_removed", "tamper_mounted")]

/-- `[e for v in EVENTS.values() for e in v if e]`: the default event-name
list, flattened in table order with empty trigger names dropped. -/
def defaultEvents : List String :=
  ((EVENTS.map (fun p => [p.2.1, p.2.2])).flatten).filter (fun e => !e.isEmpty)

/- ---------------------------------------------------------------- -/
/- Transport                                                         -/
/- ---------------------------------------------------------------- -/

/-- One HTTP request as issued through `AbstractAuth.request`:
url, method, the `json=` payload and the `data=` payload. -/
structure Req where
  url : String
  method : String
  jsonBody : JVal
  dataBody : JVal

def mkGet (url : String) : Req := ⟨url, "GET", .null, .null⟩

/-- Outcome of one HTTP attempt as seen inside `AbstractAuth.request`:
a raised exception that the method does not catch
(`ClientResponseError` from `raise_for_status`, a timeout),
a swallowed `ClientConnectionError`, or a decoded JSON body. -/
inductive ReqResult where
  | raise (e : PyErr)
  | connError
  | ok (v : JVal)

/-- The network oracle: what each request attempt produces. -/
abbrev Transport := Req → ReqResult

abbrev ReqLog := List Req

namespace AbstractAuth

/-- `AbstractAuth.request` (src/pypoint/auth.py): a `ClientConnectionError`
is caught and logged, making the coroutine return `None`; every other
exception propagates; a JSON body is returned as-is (a body with an
`error` field is only logged). -/
def request (t : Transport) (r : Req) : Except PyErr JVal :=
  match t r with
  | .raise e => .error e
  | .connError => .ok .null
  | .ok v => .ok v

end AbstractAuth

/- ---------------------------------------------------------------- -/
/- Session state                                                     -/
/- ---------------------------------------------------------------- -/

/-- The mutable state of a `PointSession`: the webhook record
(initially `{}`, possibly `None` after a swallowed registration failure),
the device cache (a dict keyed by `device["device_id"]`)
and the raw homes payload (initially `{}`, replaced by the list the
homes fetch returned). The unused `_user` field is omitted. -/
structure SessionState where
  _webhook : JVal
  _device_state : PyDict
  _homes : JVal

def initSession : SessionState := ⟨.obj [], [], .obj []⟩

/- ---------------------------------------------------------------- -/
/- PointSession operations                                           -/
/- ---------------------------------------------------------------- -/

namespace PointSession

/-- `PointSession._request_devices(url, _type)`:
`res.get(_type) if res else {}` over one GET request. -/
def _request_devices (t : Transport) (url ty : String) : Except PyErr JVal :=
  match AbstractAuth.request t (mkGet url) with
  | .error e => .error e
  | .ok res => if res.truthy then res.get ty else .ok (.obj [])

/-- One step of the dict comprehension
`{device["device_id"]: device for device in devices}`:
`device["device_id"]` is evaluated (KeyError/TypeError propagate, and an
unhashable key is a TypeError), then the binding is added, overwriting
any earlier binding of the same key. -/
def deviceStep (d : PyDict) (dev : JVal) : Except PyErr PyDict :=
  match dev.sub "device_id" with
  | .error e => .error e
  | .ok k =>
    if k.hashable then .ok (pyInsert d k dev)
    else .error PyErr.typeError

/-- The dict comprehension
`{device["device_id"]: device for device in devices}`:
evaluated completely before being assigned to `self._device_state`, so a
KeyError/TypeError inside it leaves the old cache in place. -/
def buildDeviceMap (devices : JVal) : Except PyErr PyDict :=
  match devices.iter with
  | .error e => .error e
  | .ok xs => xs.foldlM deviceStep []

/-- The eagerly evaluated argument of the "Found devices" debug log:
`[{k: self._device_state[k]["description"]} for k in self._device_state]`
raises KeyError when a cached device has no `description`. -/
def logDevicesCheck (d : PyDict) : Except PyErr Unit :=
  d.foldlM (fun _ p => do
    let _ ← p.2.sub "description"
    pure ()) ()

/-- The eagerly evaluated argument of the "Found homes" debug log:
`[{home["home_id"]: home["name"]} for home in self._homes]`. -/
def logHomesCheck (h : JVal) : Except PyErr Unit := do
  let xs ← h.iter
  xs.foldlM (fun _ home => do
    let _ ← home.sub "home_id"
    let _ ← home.sub "name"
    pure ()) ()

/-- `PointSession.update()`: fetch devices; when truthy, replace the
device cache with the comprehension, log, then fetch homes and, when
truthy, replace the homes payload and log; return the devices value.
The state at the point an exception is raised is carried in the result. -/
def update (t : Transport) (s : SessionState) :
    SessionState × ReqLog × Except PyErr JVal :=
  let dlog : ReqLog := [mkGet MINUT_DEVICES_URL]
  match _request_devices t MINUT_DEVICES_URL "devices" with
  | .error e => (s, dlog, .error e)
  | .ok devices =>
    if devices.truthy then
      match buildDeviceMap devices with
      | .error e => (s, dlog, .error e)
      | .ok dmap =>
        let s1 : SessionState := ⟨s._webhook, dmap, s._homes⟩
        match logDevicesCheck dmap with
        | .error e => (s1, dlog, .error e)
        | .ok _ =>
          let log2 : ReqLog := dlog ++ [mkGet MINUT_HOMES_URL]
          match _request_devices t MINUT_HOMES_URL "homes" with
          | .error e => (s1, log2, .error e)
          | .ok homes =>
            if homes.truthy then
              let s2 : SessionState := ⟨s1._webhook, s1._device_state, homes⟩
              match logHomesCheck homes with
              | .error e => (s2, log2, .error e)
              | .ok _ => (s2, log2, .ok devices)
            else (s1, log2, .ok devices)
    else (s, dlog, .ok devices)

/-- The request issued by the miss path of `read_sensor`. -/
def sensorReq (device_id sensor_uri : String) : Req :=
  ⟨MINUT_DEVICES_URL ++ "/" ++ device_id ++ "/" ++ sensor_uri,
   "GET", .null, .obj [("limit", .num 1)]⟩

/-- The miss path of `read_sensor`: one GET with `data={"limit": 1}`;
`None` when the response or its `values` is falsy, else
`res.get("values")[-1].get("value")`. -/
def read_sensor_miss (t : Transport) (device_id sensor_uri : String) :
    ReqLog × Except PyErr JVal :=
  let req := sensorReq device_id sensor_uri
  ([req],
    match AbstractAuth.request t req with
    | .error e => .error e
    | .ok res =>
      if !res.truthy then .ok .null
      else
        match res.get "values" with
        | .error e => .error e
        | .ok values =>
          if !values.truthy then .ok .null
          else do
            let values2 ← res.get "values"
            let last ← pyLast values2
            last.get "value")

/-- `PointSession.read_sensor(device_id, sensor_uri)`: normalise the name
through `MAP_SENSORS`, serve from
`_device_state[device_id]["latest_sensor_values"][uri]["value"]` when the
membership test on `.get("latest_sensor_values", {})` succeeds, otherwise
take the miss path. -/
def read_sensor (t : Transport) (s : SessionState)
    (device_id sensor_uri0 : String) : ReqLog × Except PyErr JVal :=
  let sensor_uri := (MAP_SENSORS.lookup sensor_uri0).getD sensor_uri0
  match pyGet? s._device_state (.str device_id) with
  | some record =>
    (match record.getD "latest_sensor_values" (.obj []) with
     | .error e => ([], .error e)
     | .ok lsv =>
       match pyContains lsv sensor_uri with
       | .error e => ([], .error e)
       | .ok true =>
         ([], do
           let lsv2 ← record.sub "latest_sensor_values"
           let entry ← lsv2.sub sensor_uri
           entry.sub "value")
       | .ok false => read_sensor_miss t device_id sensor_uri)
  | none => read_sensor_miss t device_id sensor_uri

/-- `PointSession.user()`: evaluates `self.token["user_id"]`, but no
`token` attribute is ever assigned on `PointSession`, so the attribute
lookup raises AttributeError before any request is made. -/
def user (_t : Transport) (_s : SessionState) : ReqLog × Except PyErr JVal :=
  ([], .error .attributeError)

/-- The POST request built by `_register_webhook`. -/
def registerReq (webhook_url : String) (events : List String) : Req :=
  ⟨MINUT_WEBHOOKS_URL, "POST",
   .obj [("url", .str webhook_url),
         ("events", .arr (events.map (fun e => .str e)))],
   .null⟩

/-- `PointSession._register_webhook(webhook_url, events)`. -/
def _register_webhook (t : Transport) (webhook_url : String)
    (events : List String) : ReqLog × Except PyErr JVal :=
  ([registerReq webhook_url events],
   AbstractAuth.request t (registerReq webhook_url events))

/-- The DELETE request issued by `remove_webhook`. -/
def deleteReq (hid : JVal) : Req :=
  ⟨MINUT_WEBHOOKS_URL ++ "/" ++ pyStr hid, "DELETE", .null, .null⟩

/-- `PointSession.remove_webhook()`: DELETE the held hook when
`self._webhook and self._webhook.get("hook_id")` is truthy; the local
webhook record and the caches are never touched. -/
def remove_webhook (t : Transport) (s : SessionState) :
    SessionState × ReqLog × Except PyErr Unit :=
  if s._webhook.truthy then
    match s._webhook.get "hook_id" with
    | .error e => (s, [], .error e)
    | .ok hid =>
      if hid.truthy then
        match AbstractAuth.request t (deleteReq hid) with
        | .error e => (s, [deleteReq hid], .error e)
        | .ok _ => (s, [deleteReq hid], .ok ())
      else (s, [], .ok ())
  else (s, [], .ok ())

/-- `next(hook for hook in hooks if hook["url"] == webhook_url)`:
first match, propagating any error raised by `hook["url"]`;
`none` models `StopIteration`. -/
def findHook : List JVal → String → Except PyErr (Option JVal)
  | [], _ => .ok none
  | h :: rest, url => do
    let u ← h.sub "url"
    if jEq u (.str url) then pure (some h) else findHook rest url

/-- `PointSession.update_webhook(webhook_url, webhook_id, events=None)`:
GET the hook list; adopt the first hook whose `url` matches and return
`None`; otherwise POST a registration (default events when none are
supplied), swallowing only `ClientResponseError`, and store and return
the response. `webhook_id` is only logged. -/
def update_webhook (t : Transport) (s : SessionState)
    (webhook_url _webhook_id : String) (events : Option (List String)) :
    SessionState × ReqLog × Except PyErr JVal :=
  let getReq := mkGet MINUT_WEBHOOKS_URL
  match AbstractAuth.request t getReq with
  | .error e => (s, [getReq], .error e)
  | .ok resp =>
    match resp.sub "hooks" with
    | .error e => (s, [getReq], .error e)
    | .ok hooksVal =>
      match hooksVal.iter with
      | .error e => (s, [getReq], .error e)
      | .ok hooks =>
        match findHook hooks webhook_url with
        | .error e => (s, [getReq], .error e)
        | .ok (some hook) => (⟨hook, s._device_state, s._homes⟩, [getReq], .ok .null)
        | .ok none =>
          let evts := events.getD defaultEvents
          let req := registerReq webhook_url evts
          match AbstractAuth.request t req with
          | .error .clientResponseError => (s, [getReq, req], .ok .null)
          | .error e => (s, [getReq, req], .error e)
          | .ok newhook => (⟨newhook, s._device_state, s._homes⟩, [getReq, req], .ok newhook)

/-- The `webhook` property: `self._webhook.get("hook_id")`. -/
def webhook (s : SessionState) : Except PyErr JVal :=
  s._webhook.get "hook_id"

/-- One step of the `homes` comprehension
`{home["home_id"]: home for home in self._homes if "alarm_status" in home.keys()}`:
the filter `"alarm_status" in home.keys()` is evaluated first, and only
for passing records is `home["home_id"]` evaluated and the binding added. -/
def homesStep (acc : PyDict) (home : JVal) : Except PyErr PyDict :=
  match home.keys with
  | .error e => .error e
  | .ok ks =>
    if ks.contains "alarm_status" then
      match home.sub "home_id" with
      | .error e => .error e
      | .ok hid =>
        if hid.hashable then .ok (pyInsert acc hid home)
        else .error PyErr.typeError
    else .ok acc

/-- The `homes` property:
`{home["home_id"]: home for home in self._homes if "alarm_status" in home.keys()}`.
Pure over the cached payload; no transport argument exists. -/
def homes (s : SessionState) : Except PyErr PyDict :=
  match s._homes.iter with
  | .error e => .error e
  | .ok xs => xs.foldlM homesStep []

/-- The PUT request issued by `_set_alarm`. -/
def alarmReq (status home_id : String) : Req :=
  ⟨MINUT_HOMES_URL ++ "/" ++ home_id, "PUT",
   .obj [("alarm_status", .str status)], .null⟩

/-- `PointSession._set_alarm(status, home_id)`:
`response.get("alarm_status", "") == status` over one PUT. -/
def _set_alarm (t : Transport) (status home_id : String) :
    ReqLog × Except PyErr Bool :=
  ([alarmReq status home_id], do
    let response ← AbstractAuth.request t (alarmReq status home_id)
    let v ← response.getD "alarm_status" (.str "")
    pure (jEq v (.str status)))

/-- `PointSession.alarm_arm(home_id)`. -/
def alarm_arm (t : Transport) (home_id : String) : ReqLog × Except PyErr Bool :=
  _set_alarm t "on" home_id

/-- `PointSession.alarm_disarm(home_id)`. -/
def alarm_disarm (t : Transport) (home_id : String) : ReqLog × Except PyErr Bool :=
  _set_alarm t "off" home_id

/-- `PointSession.device_raw(device_id)`: `self._device_state.get(device_id)`,
`None` when absent. -/
def device_raw (s : SessionState) (device_id : String) : JVal :=
  (pyGet? s._device_state (.str device_id)).getD .null

end PointSession

/- ---------------------------------------------------------------- -/
/- Device view                                                       -/
/- ---------------------------------------------------------------- -/

/-- A `Device` view: in the source it stores `(session, device_id)`;
the session binding is modelled by passing the session state to each
accessor, which is how every accessor reads it (live, at call time). -/
structure Device where
  _device_id : String

/-- `PointSession.device(device_id)`: raises `Exception("ERR FER")` for a
length-1 identifier, otherwise builds the view. The cache is not read. -/
def PointSession.device (device_id : String) : Except PyErr Device :=
  if device_id.length == 1 then .error (.exception "ERR FER")
  else .ok ⟨device_id⟩

namespace Device

/-- The `device` property: `self._session.device_raw(self.device_id)`. -/
def device (d : Device) (s : SessionState) : JVal :=
  PointSession.device_raw s d._device_id

/-- A value of the `device_info` dict: a set of connection pairs, a plain
string, or a value copied from the device record. -/
inductive InfoVal where
  | conns (c : List (String × JVal))
  | strv (s : String)
  | jval (v : JVal)

/-- The `device_info` property, as the key-value list the source's dict
display builds (evaluation order of the subscripts preserved). Note the
source spells the second key `identifieres`. -/
def device_info (d : Device) (s : SessionState) :
    Except PyErr (List (String × InfoVal)) := do
  let mac ← (d.device s).sub "device_mac"
  let did ← (d.device s).sub "device_id"
  let hw ← (d.device s).sub "hardware_version"
  let desc ← (d.device s).sub "description"
  let fw ← (d.device s).sub "firmware"
  let inst ← fw.sub "installed"
  pure [("connections", .conns [("mac", mac)]),
        ("identifieres", .jval did),
        ("manufacturer", .strv "Minut"),
        ("model", .strv ("Point v" ++ pyStr hw)),
        ("name", .jval desc),
        ("sw_version", .jval inst)]

end Device

/- ---------------------------------------------------------------- -/
/- Helper lemmas                                                     -/
/- ---------------------------------------------------------------- -/

lemma jEq_str_right (v : JVal) (x : String) :
    jEq v (.str x) = true ↔ v = .str x := by
  cases v <;> simp [jEq]

lemma getD_of_sub_ok {v : JVal} {k : String} {w d : JVal}
    (h : v.sub k = .ok w) : v.getD k d = .ok w := by
  cases v with
  | obj m =>
    cases hl : m.lookup k with
    | some u =>
      rw [JVal.sub, hl] at h
      cases h
      rw [JVal.getD, hl]
      rfl
    | none => rw [JVal.sub, hl] at h; cases h
  | null => cases h
  | bool b => cases h
  | num n => cases h
  | str s => cases h
  | arr xs => cases h

lemma any_key_of_lookup {m : List (String × JVal)} {k : String} {e : JVal}
    (h : m.lookup k = some e) : m.any (fun p => p.1 == k) = true := by
  induction m with
  | nil => simp [List.lookup] at h
  | cons p rest ih =>
    rcases p with ⟨a, b⟩
    by_cases hk : k = a
    · subst hk; simp
    · have hba : (k == a) = false := by simp [hk]
      rw [List.lookup, hba] at h
      have h2 := ih h
      simp [h2]

lemma lookup_ne_nil {m : List (String × JVal)} {k : String} {e : JVal}
    (h : m.lookup k = some e) : m ≠ [] := by
  cases m with
  | nil => simp [List.lookup] at h
  | cons p rest => simp

lemma pyInsert_fresh {d : PyDict} {k : JVal} (v : JVal)
    (h : ∀ p ∈ d, jEq p.1 k = false) :
    pyInsert d k v = d ++ [(k, v)] := by
  have ha : d.any (fun p => jEq p.1 k) = false := by
    rw [List.any_eq_false]
    intro p hp
    simp [h p hp]
  rw [pyInsert, ha]
  simp

lemma mem_pyInsert {d : PyDict} {k v : JVal} {p : JVal × JVal}
    (h : p ∈ pyInsert d k v) : p ∈ d ∨ p.2 = v := by
  rw [pyInsert] at h
  by_cases ha : d.any (fun q => jEq q.1 k) = true
  · rw [if_pos ha] at h
    rcases List.mem_map.mp h with ⟨q, hq, hqe⟩
    by_cases hk : jEq q.1 k = true
    · rw [if_pos hk] at hqe
      right
      rw [← hqe]
    · rw [if_neg hk] at hqe
      left
      rw [← hqe]
      exact hq
  · rw [if_neg ha] at h
    rcases List.mem_append.mp h with h1 | h2
    · left; exact h1
    · right
      have : p = (k, v) := by simpa using h2
      rw [this]

/- ---------------------------------------------------------------- -/
/- Claims                                                            -/
/- ---------------------------------------------------------------- -/

/-- Claim C7: `device(id)` raises the usage error `Exception("ERR FER")`
exactly for identifiers of length 1 (independent of any cache state,
which `device` never reads), and for every other length returns the
Device view holding that identifier without raising. -/
theorem claim_C7_device_guard (device_id : String) :
    (device_id.length = 1 →
      PointSession.device device_id = .error (.exception "ERR FER")) ∧
    (device_id.length ≠ 1 →
      PointSession.device device_id = .ok ⟨device_id⟩) := by
  constructor
  · intro h
    simp [PointSession.device, h]
  · intro h
    simp [PointSession.device, h]

/-- Witness for C7 at the length-1 identifier `"a"` and at `"ab"`. -/
theorem claim_C7_device_guard_witness :
    PointSession.device "a" = .error (.exception "ERR FER") ∧
    PointSession.device "ab" = .ok ⟨"ab"⟩ :=
  ⟨(claim_C7_device_guard "a").1 (by decide),
   (claim_C7_device_guard "ab").2 (by decide)⟩

/-- Claim C10: `remove_webhook` never modifies the session state — the
whole state (hence the `webhook` accessor's view, the device cache and
the home cache) is the same after the call as before it, whether the call
issued a DELETE, was a no-op, or raised. -/
theorem claim_C10_remove_webhook_frame (t : Transport) (s : SessionState) :
    (PointSession.remove_webhook t s).1 = s ∧
    PointSession.webhook (PointSession.remove_webhook t s).1 =
      PointSession.webhook s ∧
    ((PointSession.remove_webhook t s).1)._device_state = s._device_state ∧
    ((PointSession.remove_webhook t s).1)._homes = s._homes := by
  have h1 : (PointSession.remove_webhook t s).1 = s := by
    rw [PointSession.remove_webhook]
    split
    · split
      · rfl
      · split
        · split <;> rfl
        · rfl
    · rfl
  exact ⟨h1, by rw [h1], by rw [h1], by rw [h1]⟩

/-- Claim C9, divergence exhibited: on a fully populated cached device
record, `device_info` returns the descriptor whose second key is the
misspelled `"identifieres"`; no key `"identifiers"` exists in the result,
while connections/manufacturer/model/name/sw_version are as described. -/
theorem claim_C9_device_info_identifieres :
    Device.device_info ⟨"abc123"⟩
      ⟨.obj [], [(.str "abc123",
        .obj [("device_id", .str "abc123"), ("device_mac", .str "00:11:22"),
              ("hardware_version", .str "2"), ("description", .str "Kitchen"),
              ("firmware", .obj [("installed", .str "1.4.2")])])], .obj []⟩ =
      .ok [("connections", .conns [("mac", .str "00:11:22")]),
           ("identifieres", .jval (.str "abc123")),
           ("manufacturer", .strv "Minut"),
           ("model", .strv "Point v2"),
           ("name", .jval (.str "Kitchen")),
           ("sw_version", .jval (.str "1.4.2"))] ∧
    Except.map (fun res => res.lookup "identifiers")
      (Device.device_info ⟨"abc123"⟩
        ⟨.obj [], [(.str "abc123",
          .obj [("device_id", .str "abc123"), ("device_mac", .str "00:11:22"),
                ("hardware_version", .str "2"), ("description", .str "Kitchen"),
                ("firmware", .obj [("installed", .str "1.4.2")])])], .obj []⟩) =
      .ok none := by
  constructor
  · rfl
  · rfl

/-- Claim C5, counterexample: when the PUT gets a connection error the
transport swallows it and returns `None`, and `_set_alarm` then calls
`.get` on `None` — `alarm_arm` raises AttributeError instead of
returning false. -/
theorem claim_C5_counterexample :
    (PointSession.alarm_arm (fun _ => .connError) "h1").2 =
      .error .attributeError ∧
    (PointSession.alarm_arm (fun _ => .connError) "h1").2 ≠ .ok false ∧
    (PointSession.alarm_arm (fun _ => .connError) "h1").2 ≠ .ok true := by
  have h : (PointSession.alarm_arm (fun _ => .connError) "h1").2 =
      .error .attributeError := rfl
  exact ⟨h, by rw [h]; simp, by rw [h]; simp⟩

/-- Claim C5 as amended: when the PUT response is a JSON object,
`alarm_arm` returns true exactly when its `alarm_status` equals `"on"`
(and `alarm_disarm` exactly when it equals `"off"`); a missing field
yields false; but an absent response (swallowed connection error) raises
AttributeError rather than returning false. -/
theorem claim_C5_amended (t : Transport) (home_id : String)
    (m : List (String × JVal)) :
    (t (PointSession.alarmReq "on" home_id) = .ok (.obj m) →
      ((PointSession.alarm_arm t home_id).2 = .ok true ↔
        m.lookup "alarm_status" = some (.str "on"))) ∧
    (t (PointSession.alarmReq "off" home_id) = .ok (.obj m) →
      ((PointSession.alarm_disarm t home_id).2 = .ok true ↔
        m.lookup "alarm_status" = some (.str "off"))) ∧
    (t (PointSession.alarmReq "on" home_id) = .ok (.obj m) →
      m.lookup "alarm_status" = none →
      (PointSession.alarm_arm t home_id).2 = .ok false) ∧
    (t (PointSession.alarmReq "on" home_id) = .connError →
      (PointSession.alarm_arm t home_id).2 = .error .attributeError) := by
  refine ⟨?_, ?_, ?_, ?_⟩
  · intro h
    simp only [PointSession.alarm_arm, PointSession._set_alarm,
      AbstractAuth.request, h]
    cases hl : m.lookup "alarm_status" with
    | none =>
      simp [Bind.bind, Except.bind, JVal.getD, hl, Pure.pure, Except.pure, jEq]
    | some v =>
      simp [Bind.bind, Except.bind, JVal.getD, hl, Pure.pure, Except.pure,
        jEq_str_right]
  · intro h
    simp only [PointSession.alarm_disarm, PointSession._set_alarm,
      AbstractAuth.request, h]
    cases hl : m.lookup "alarm_status" with
    | none =>
      simp [Bind.bind, Except.bind, JVal.getD, hl, Pure.pure, Except.pure, jEq]
    | some v =>
      simp [Bind.bind, Except.bind, JVal.getD, hl, Pure.pure, Except.pure,
        jEq_str_right]
  · intro h hl
    simp [PointSession.alarm_arm, PointSession._set_alarm,
      AbstractAuth.request, h, Bind.bind, Except.bind, JVal.getD, hl,
      Pure.pure, Except.pure, jEq]
  · intro h
    simp [PointSession.alarm_arm, PointSession._set_alarm,
      AbstractAuth.request, h, Bind.bind, Except.bind, JVal.getD]

/-- Witness for C5 as amended, at concrete transports: an `"on"` echo, a
response with `alarm_status` `"off"`, a response without the field, and
a connection failure. -/
theorem claim_C5_amended_witness :
    (PointSession.alarm_arm
      (fun _ => .ok (.obj [("alarm_status", .str "on")])) "h1").2 = .ok true ∧
    (PointSession.alarm_arm
      (fun _ => .ok (.obj [("alarm_status", .str "off")])) "h1").2 ≠ .ok true ∧
    (PointSession.alarm_arm (fun _ => .ok (.obj [("x", .num 1)])) "h1").2 =
      .ok false ∧
    (PointSession.alarm_arm (fun _ => .connError) "h2").2 =
      .error .attributeError := by
  refine ⟨?_, ?_, ?_, ?_⟩
  · exact ((claim_C5_amended (fun _ => .ok (.obj [("alarm_status", .str "on")]))
      "h1" [("alarm_status", .str "on")]).1 rfl).mpr rfl
  · intro hcon
    have h2 := ((claim_C5_amended
      (fun _ => .ok (.obj [("alarm_status", .str "off")])) "h1"
      [("alarm_status", .str "off")]).1 rfl).mp hcon
    simp [List.lookup] at h2
  · exact (claim_C5_amended (fun _ => .ok (.obj [("x", .num 1)])) "h1"
      [("x", .num 1)]).2.2.1 rfl rfl
  · exact (claim_C5_amended (fun _ => .connError) "h2" []).2.2.2 rfl

/-- Claim C4, counterexample: a non-2xx status makes `raise_for_status`
raise `ClientResponseError`, which nothing in `_set_alarm`/`alarm_arm`
catches — the transport failure propagates to the caller as a raised
fault instead of an empty/false result. -/
theorem claim_C4_counterexample :
    (PointSession.alarm_arm (fun _ => .raise .clientResponseError) "h1").2 =
      .error .clientResponseError ∧
    (PointSession.alarm_arm (fun _ => .raise .clientResponseError) "h1").2 ≠
      .ok false ∧
    (PointSession.alarm_arm (fun _ => .raise .clientResponseError) "h1").2 ≠
      .ok true := by
  have h : (PointSession.alarm_arm
      (fun _ => .raise .clientResponseError) "h1").2 =
      .error .clientResponseError := rfl
  exact ⟨h, by rw [h]; simp, by rw [h]; simp⟩

/-- Claim C4 as amended: only `ClientConnectionError` is swallowed at the
transport (the request returns `None`), which makes `update` return an
empty result leaving the state unchanged, `read_sensor` return nothing,
and `remove_webhook` complete; `update_webhook` additionally swallows a
`ClientResponseError` from its registration POST, returning `None`. But
a non-2xx `ClientResponseError` propagates as a raised fault out of
`alarm_arm`/`alarm_disarm` (and likewise out of the other operations'
uncaught requests); on a swallowed connection error `alarm_arm` raises
AttributeError and `update_webhook` raises TypeError; and `user()` always
raises AttributeError because `self.token` is never assigned. -/
theorem claim_C4_amended (t : Transport) (s : SessionState)
    (home_id device_id uri url wid : String) :
    (t (mkGet MINUT_DEVICES_URL) = .connError →
      PointSession.update t s = (s, [mkGet MINUT_DEVICES_URL], .ok (.obj []))) ∧
    (pyGet? s._device_state (.str device_id) = none →
      t (PointSession.sensorReq device_id
          ((MAP_SENSORS.lookup uri).getD uri)) = .connError →
      PointSession.read_sensor t s device_id uri =
        ([PointSession.sensorReq device_id ((MAP_SENSORS.lookup uri).getD uri)],
         .ok .null)) ∧
    (∀ wm hid, s._webhook = .obj wm → wm.lookup "hook_id" = some hid →
      hid.truthy = true → t (PointSession.deleteReq hid) = .connError →
      PointSession.remove_webhook t s = (s, [PointSession.deleteReq hid], .ok ())) ∧
    (∀ resp hv hs, t (mkGet MINUT_WEBHOOKS_URL) = .ok resp →
      resp.sub "hooks" = .ok hv → hv.iter = .ok hs →
      PointSession.findHook hs url = .ok none →
      t (PointSession.registerReq url defaultEvents) =
        .raise .clientResponseError →
      PointSession.update_webhook t s url wid none =
        (s, [mkGet MINUT_WEBHOOKS_URL, PointSession.registerReq url defaultEvents],
         .ok .null)) ∧
    (t (PointSession.alarmReq "on" home_id) = .raise .clientResponseError →
      (PointSession.alarm_arm t home_id).2 = .error .clientResponseError) ∧
    (t (mkGet MINUT_WEBHOOKS_URL) = .connError →
      PointSession.update_webhook t s url wid none =
        (s, [mkGet MINUT_WEBHOOKS_URL], .error .typeError)) ∧
    PointSession.user t s = ([], .error .attributeError) := by
  refine ⟨?_, ?_, ?_, ?_, ?_, ?_, rfl⟩
  · intro h
    simp [PointSession.update, PointSession._request_devices,
      AbstractAuth.request, h, JVal.truthy]
  · intro hmiss h
    simp [PointSession.read_sensor, hmiss, PointSession.read_sensor_miss,
      AbstractAuth.request, h, JVal.truthy]
  · intro wm hid hw hl ht hconn
    have hne : wm ≠ [] := lookup_ne_nil hl
    have htr : s._webhook.truthy = true := by
      rw [hw, JVal.truthy]
      simpa using hne
    have hget : s._webhook.get "hook_id" = .ok hid := by
      rw [hw, JVal.get, hl]
      rfl
    rw [PointSession.remove_webhook, if_pos htr, hget]
    simp only [ht, if_pos]
    rw [AbstractAuth.request, hconn]
  · intro resp hv hs hget hsub hiter hfind hpost
    simp [PointSession.update_webhook, AbstractAuth.request, hget, hsub,
      hiter, hfind, hpost]
  · intro h
    simp [PointSession.alarm_arm, PointSession._set_alarm,
      AbstractAuth.request, h, Bind.bind, Except.bind]
  · intro h
    simp [PointSession.update_webhook, AbstractAuth.request, h, JVal.sub]

/-- Witness for C4 as amended, at concrete transports and states. -/
theorem claim_C4_amended_witness :
    PointSession.update (fun _ => .connError) initSession =
      (initSession, [mkGet MINUT_DEVICES_URL], .ok (.obj [])) ∧
    PointSession.read_sensor (fun _ => .connError) initSession "d1" "sound" =
      ([PointSession.sensorReq "d1" "sound"], .ok .null) ∧
    PointSession.remove_webhook (fun _ => .connError)
      ⟨.obj [("hook_id", .str "h1")], [], .obj []⟩ =
      (⟨.obj [("hook_id", .str "h1")], [], .obj []⟩,
       [PointSession.deleteReq (.str "h1")], .ok ()) ∧
    PointSession.update_webhook
      (fun r => if r.method == "POST" then .raise .clientResponseError
                else .ok (.obj [("hooks", .arr [])]))
      initSession "https://x" "w1" none =
      (initSession,
       [mkGet MINUT_WEBHOOKS_URL, PointSession.registerReq "https://x" defaultEvents],
       .ok .null) ∧
    (PointSession.alarm_arm (fun _ => .raise .clientResponseError) "h9").2 =
      .error .clientResponseError ∧
    PointSession.update_webhook (fun _ => .connError) initSession
      "https://x" "w1" none =
      (initSession, [mkGet MINUT_WEBHOOKS_URL], .error .typeError) ∧
    PointSession.user (fun _ => .connError) initSession =
      ([], .error .attributeError) := by
  refine ⟨?_, ?_, ?_, ?_, ?_, ?_, ?_⟩
  · exact (claim_C4_amended (fun _ => .connError) initSession "h" "d" "u"
      "https://x" "w").1 rfl
  · exact (claim_C4_amended (fun _ => .connError) initSession "h" "d1" "sound"
      "https://x" "w").2.1 rfl rfl
  · exact (claim_C4_amended (fun _ => .connError)
      ⟨.obj [("hook_id", .str "h1")], [], .obj []⟩ "h" "d" "u" "https://x"
      "w").2.2.1 [("hook_id", .str "h1")] (.str "h1") rfl rfl rfl rfl
  · exact (claim_C4_amended
      (fun r => if r.method == "POST" then .raise .clientResponseError
                else .ok (.obj [("hooks", .arr [])]))
      initSession "h" "d" "u" "https://x" "w1").2.2.2.1
      (.obj [("hooks", .arr [])]) (.arr []) [] rfl rfl rfl rfl rfl
  · exact (claim_C4_amended (fun _ => .raise .clientResponseError) initSession
      "h9" "d" "u" "https://x" "w").2.2.2.2.1 rfl
  · exact (claim_C4_amended (fun _ => .connError) initSession "h" "d" "u"
      "https://x" "w1").2.2.2.2.2.1 rfl
  · exact (claim_C4_amended (fun _ => .connError) initSession "h" "d" "u"
      "https://x" "w").2.2.2.2.2.2

/-- Claim C2: `read_sensor` first normalises the sensor name through
`MAP_SENSORS`; a cached `latest_sensor_values` entry for the normalised
name is returned directly with no request issued; otherwise one request
with `data={"limit": 1}` is issued and the result is `None` when the
response or its `values` is falsy, else the `value` of the last entry of
`values`. -/
lemma any_key_of_lookup_none {m : List (String × JVal)} {k : String}
    (h : m.lookup k = none) : m.any (fun p => p.1 == k) = false := by
  induction m with
  | nil => simp
  | cons p rest ih =>
    rcases p with ⟨a, b⟩
    by_cases hk : k = a
    · subst hk; simp [List.lookup] at h
    · have hba : (k == a) = false := by simp [hk]
      rw [List.lookup, hba] at h
      have h2 := ih h
      have hab : (a == k) = false := by
        simp
        intro hcon
        exact hk hcon.symm
      simp [h2, hab]

theorem claim_C2_read_sensor (t : Transport) (s : SessionState)
    (device_id uri su : String)
    (hsu : (MAP_SENSORS.lookup uri).getD uri = su) :
    (∀ rec m e v,
      pyGet? s._device_state (.str device_id) = some rec →
      rec.sub "latest_sensor_values" = .ok (.obj m) →
      m.lookup su = some e → e.sub "value" = .ok v →
      PointSession.read_sensor t s device_id uri = ([], .ok v)) ∧
    (pyGet? s._device_state (.str device_id) = none →
      t (PointSession.sensorReq device_id su) = .connError →
      PointSession.read_sensor t s device_id uri =
        ([PointSession.sensorReq device_id su], .ok .null)) ∧
    (pyGet? s._device_state (.str device_id) = none →
      ∀ rm, t (PointSession.sensorReq device_id su) = .ok (.obj rm) →
      ((rm.lookup "values").getD .null).truthy = false →
      PointSession.read_sensor t s device_id uri =
        ([PointSession.sensorReq device_id su], .ok .null)) ∧
    (pyGet? s._device_state (.str device_id) = none →
      ∀ rm vs em, t (PointSession.sensorReq device_id su) = .ok (.obj rm) →
      rm.lookup "values" = some (.arr vs) →
      vs.getLast? = some (.obj em) →
      PointSession.read_sensor t s device_id uri =
        ([PointSession.sensorReq device_id su],
         .ok ((em.lookup "value").getD .null))) ∧
    (∀ rec m, pyGet? s._device_state (.str device_id) = some rec →
      rec.getD "latest_sensor_values" (.obj []) = .ok (.obj m) →
      m.lookup su = none →
      t (PointSession.sensorReq device_id su) = .connError →
      PointSession.read_sensor t s device_id uri =
        ([PointSession.sensorReq device_id su], .ok .null)) := by
  refine ⟨?_, ?_, ?_, ?_, ?_⟩
  · intro rec m e v h1 h2 h3 h4
    have hgd : rec.getD "latest_sensor_values" (.obj []) = .ok (.obj m) :=
      getD_of_sub_ok h2
    have hcont : pyContains (.obj m) su = .ok true := by
      rw [pyContains, any_key_of_lookup h3]
    have hsub2 : JVal.sub (.obj m) su = .ok e := by rw [JVal.sub, h3]
    simp only [PointSession.read_sensor, hsu, h1, hgd, hcont]
    simp [Bind.bind, Except.bind, h2, hsub2, h4]
  · intro h1 h2
    simp only [PointSession.read_sensor, hsu, h1,
      PointSession.read_sensor_miss, AbstractAuth.request, h2]
    simp [JVal.truthy]
  · intro h1 rm h2 h3
    simp only [PointSession.read_sensor, hsu, h1,
      PointSession.read_sensor_miss, AbstractAuth.request, h2]
    by_cases hrm : rm = []
    · subst hrm
      simp [JVal.truthy]
    · have htr : (JVal.obj rm).truthy = true := by
        simp [JVal.truthy, hrm]
      have hvv : JVal.get (.obj rm) "values" =
          .ok ((rm.lookup "values").getD .null) := rfl
      simp [htr, hvv, h3]
  · intro h1 rm vs em h2 h3 hlast
    have hne : rm ≠ [] := lookup_ne_nil h3
    have htr : (JVal.obj rm).truthy = true := by
      simp [JVal.truthy, hne]
    have hvs : vs ≠ [] := by
      intro hv
      rw [hv] at hlast
      simp at hlast
    have hvv : JVal.get (.obj rm) "values" = .ok (.arr vs) := by
      rw [JVal.get, h3]
      rfl
    have hvtr : (JVal.arr vs).truthy = true := by
      simp [JVal.truthy, hvs]
    have hpl : pyLast (.arr vs) = .ok (.obj em) := by
      rw [pyLast, hlast]
    simp only [PointSession.read_sensor, hsu, h1,
      PointSession.read_sensor_miss, AbstractAuth.request, h2]
    simp [htr, hvv, hvtr, hpl, h3, Bind.bind, Except.bind, JVal.get]
  · intro rec m h1 h2 h3 h4
    have hcont : pyContains (.obj m) su = .ok false := by
      rw [pyContains, any_key_of_lookup_none h3]
    simp only [PointSession.read_sensor, hsu, h1, h2, hcont,
      PointSession.read_sensor_miss, AbstractAuth.request, h4]
    simp [JVal.truthy]

/-- Witness for C2: the spec's cache-hit scenario
(`latest_sensor_values.sound = {value: 42}` served for `"sound_pressure"`
with no request), the connection-failure miss, the empty-`values` miss and
a one-entry `values` miss. -/
theorem claim_C2_read_sensor_witness :
    PointSession.read_sensor (fun _ => .connError)
      ⟨.obj [], [(.str "dev1",
        .obj [("latest_sensor_values",
               .obj [("sound", .obj [("value", .num 42)])])])], .obj []⟩
      "dev1" "sound_pressure" = ([], .ok (.num 42)) ∧
    PointSession.read_sensor (fun _ => .connError) initSession "dev1" "sound" =
      ([PointSession.sensorReq "dev1" "sound"], .ok .null) ∧
    PointSession.read_sensor (fun _ => .ok (.obj [("values", .arr [])]))
      initSession "dev1" "sound" =
      ([PointSession.sensorReq "dev1" "sound"], .ok .null) ∧
    PointSession.read_sensor
      (fun _ => .ok (.obj [("values", .arr [.obj [("value", .num 7)]])]))
      initSession "dev1" "sound" =
      ([PointSession.sensorReq "dev1" "sound"], .ok (.num 7)) ∧
    PointSession.read_sensor (fun _ => .connError)
      ⟨.obj [], [(.str "dev1",
        .obj [("latest_sensor_values", .obj [("humidity", .obj [("value", .num 3)])])])],
       .obj []⟩
      "dev1" "sound" =
      ([PointSession.sensorReq "dev1" "sound"], .ok .null) := by
  refine ⟨?_, ?_, ?_, ?_, ?_⟩
  · exact (claim_C2_read_sensor (fun _ => .connError)
      ⟨.obj [], [(.str "dev1",
        .obj [("latest_sensor_values",
               .obj [("sound", .obj [("value", .num 42)])])])], .obj []⟩
      "dev1" "sound_pressure" "sound" rfl).1
      (.obj [("latest_sensor_values", .obj [("sound", .obj [("value", .num 42)])])])
      [("sound", .obj [("value", .num 42)])]
      (.obj [("value", .num 42)]) (.num 42) rfl rfl rfl rfl
  · exact (claim_C2_read_sensor (fun _ => .connError) initSession
      "dev1" "sound" "sound" rfl).2.1 rfl rfl
  · exact (claim_C2_read_sensor (fun _ => .ok (.obj [("values", .arr [])]))
      initSession "dev1" "sound" "sound" rfl).2.2.1 rfl
      [("values", .arr [])] rfl rfl
  · have h := (claim_C2_read_sensor
      (fun _ => .ok (.obj [("values", .arr [.obj [("value", .num 7)]])]))
      initSession "dev1" "sound" "sound" rfl).2.2.2.1 rfl
      [("values", .arr [.obj [("value", .num 7)]])]
      [.obj [("value", .num 7)]] [("value", .num 7)] rfl rfl rfl
    simpa using h
  · exact (claim_C2_read_sensor (fun _ => .connError)
      ⟨.obj [], [(.str "dev1",
        .obj [("latest_sensor_values", .obj [("humidity", .obj [("value", .num 3)])])])],
       .obj []⟩
      "dev1" "sound" "sound" rfl).2.2.2.2
      (.obj [("latest_sensor_values", .obj [("humidity", .obj [("value", .num 3)])])])
      [("humidity", .obj [("value", .num 3)])] rfl rfl rfl rfl

lemma findHook_none_iff (url : String) (hs : List JVal)
    (hwf : ∀ h2 ∈ hs, ∃ m2 u, h2 = .obj m2 ∧ m2.lookup "url" = some u) :
    PointSession.findHook hs url = .ok none ↔
      ∀ h2 m2, h2 ∈ hs → h2 = .obj m2 →
        m2.lookup "url" ≠ some (.str url) := by
  induction hs with
  | nil => simp [PointSession.findHook]
  | cons x rest ih =>
    obtain ⟨m2, u, he, hu⟩ := hwf x (by simp)
    subst he
    have hsubx : JVal.sub (.obj m2) "url" = .ok u := by rw [JVal.sub, hu]
    rw [PointSession.findHook]
    simp only [hsubx, Bind.bind, Except.bind]
    by_cases hj : jEq u (.str url) = true
    · have hueq : u = .str url := (jEq_str_right u url).mp hj
      subst hueq
      rw [if_pos hj]
      simp only [Pure.pure, Except.pure]
      constructor
      · intro hfalse
        cases hfalse
      · intro hall
        exact absurd hu (hall (.obj m2) m2 (by simp) rfl)
    · have hjf : jEq u (.str url) = false := by simpa using hj
      rw [if_neg (by simp [hjf])]
      rw [ih (fun x2 hx2 => hwf x2 (List.mem_cons_of_mem _ hx2))]
      constructor
      · intro hrest h2 m3 hmem heq
        rcases List.mem_cons.mp hmem with hcase | hcase
        · subst hcase
          cases heq
          intro hcon
          rw [hu] at hcon
          cases hcon
          simp [jEq] at hjf
        · exact hrest h2 m3 hcase heq
      · intro hall h2 m3 hmem heq
        exact hall h2 m3 (List.mem_cons_of_mem _ hmem) heq

/-- Claim C3: `update_webhook` with a url absent from the server's hook
list registers via POST with the flattened default event list (when no
events are supplied), stores the POST response and returns it (non-null);
with a url already present it issues no POST, adopts the matching server
record and returns `None`; the `webhook` accessor then reads that
record's `hook_id`. The last conjunct ties `findHook` to "no hook on the
list has that url". -/
theorem claim_C3_update_webhook (t : Transport) (s : SessionState)
    (url wid : String) (resp hv : JVal) (hs : List JVal) :
    (t (mkGet MINUT_WEBHOOKS_URL) = .ok resp → resp.sub "hooks" = .ok hv →
      hv.iter = .ok hs → PointSession.findHook hs url = .ok none →
      ∀ nm, t (PointSession.registerReq url defaultEvents) = .ok (.obj nm) →
      PointSession.update_webhook t s url wid none =
        (⟨.obj nm, s._device_state, s._homes⟩,
         [mkGet MINUT_WEBHOOKS_URL, PointSession.registerReq url defaultEvents],
         .ok (.obj nm)) ∧ JVal.obj nm ≠ .null) ∧
    (t (mkGet MINUT_WEBHOOKS_URL) = .ok resp → resp.sub "hooks" = .ok hv →
      hv.iter = .ok hs →
      ∀ hook, PointSession.findHook hs url = .ok (some hook) →
      PointSession.update_webhook t s url wid none =
        (⟨hook, s._device_state, s._homes⟩, [mkGet MINUT_WEBHOOKS_URL],
         .ok .null)) ∧
    (∀ hm hid, hm.lookup "hook_id" = some hid →
      PointSession.webhook ⟨.obj hm, s._device_state, s._homes⟩ = .ok hid) ∧
    ((∀ h2 ∈ hs, ∃ m2 u, h2 = .obj m2 ∧ m2.lookup "url" = some u) →
      (PointSession.findHook hs url = .ok none ↔
        ∀ h2 m2, h2 ∈ hs → h2 = .obj m2 →
          m2.lookup "url" ≠ some (.str url))) := by
  refine ⟨?_, ?_, ?_, findHook_none_iff url hs⟩
  · intro hg hsub hit hfind nm hpost
    refine ⟨?_, by simp⟩
    simp [PointSession.update_webhook, AbstractAuth.request, hg, hsub, hit,
      hfind, hpost]
  · intro hg hsub hit hook hfind
    simp [PointSession.update_webhook, AbstractAuth.request, hg, hsub, hit,
      hfind]
  · intro hm hid h
    rw [PointSession.webhook]
    show JVal.get (.obj hm) "hook_id" = .ok hid
    rw [JVal.get, h]
    rfl

/-- Witness for C3: hook list `[{"url": "https://x", "hook_id": "h1"}]` —
the same-url call issues no POST, adopts the record, and `webhook`
returns `"h1"`; against an empty hook list the call POSTs the default
events and returns the new registration; and the `findHook`
characterisation at that list. -/
theorem claim_C3_update_webhook_witness :
    PointSession.update_webhook
      (fun _ => .ok (.obj [("hooks",
        .arr [.obj [("url", .str "https://x"), ("hook_id", .str "h1")]])]))
      initSession "https://x" "ignored" none =
      (⟨.obj [("url", .str "https://x"), ("hook_id", .str "h1")], [], .obj []⟩,
       [mkGet MINUT_WEBHOOKS_URL], .ok .null) ∧
    PointSession.webhook
      ⟨.obj [("url", .str "https://x"), ("hook_id", .str "h1")], [], .obj []⟩ =
      .ok (.str "h1") ∧
    PointSession.update_webhook
      (fun r => if r.method == "POST"
                then .ok (.obj [("hook_id", .str "h2"), ("url", .str "https://y")])
                else .ok (.obj [("hooks", .arr [])]))
      initSession "https://y" "ignored" none =
      (⟨.obj [("hook_id", .str "h2"), ("url", .str "https://y")], [], .obj []⟩,
       [mkGet MINUT_WEBHOOKS_URL, PointSession.registerReq "https://y" defaultEvents],
       .ok (.obj [("hook_id", .str "h2"), ("url", .str "https://y")])) ∧
    PointSession.findHook
      [.obj [("url", .str "https://x"), ("hook_id", .str "h1")]] "https://z" =
      .ok none := by
  refine ⟨?_, ?_, ?_, ?_⟩
  · exact (claim_C3_update_webhook
      (fun _ => .ok (.obj [("hooks",
        .arr [.obj [("url", .str "https://x"), ("hook_id", .str "h1")]])]))
      initSession "https://x" "ignored"
      (.obj [("hooks",
        .arr [.obj [("url", .str "https://x"), ("hook_id", .str "h1")]])])
      (.arr [.obj [("url", .str "https://x"), ("hook_id", .str "h1")]])
      [.obj [("url", .str "https://x"), ("hook_id", .str "h1")]]).2.1
      rfl rfl rfl
      (.obj [("url", .str "https://x"), ("hook_id", .str "h1")]) rfl
  · exact (claim_C3_update_webhook (fun _ => .connError) initSession
      "https://x" "ignored" .null .null []).2.2.1
      [("url", .str "https://x"), ("hook_id", .str "h1")] (.str "h1") rfl
  · exact ((claim_C3_update_webhook
      (fun r => if r.method == "POST"
                then .ok (.obj [("hook_id", .str "h2"), ("url", .str "https://y")])
                else .ok (.obj [("hooks", .arr [])]))
      initSession "https://y" "ignored"
      (.obj [("hooks", .arr [])]) (.arr []) []).1
      rfl rfl rfl rfl
      [("hook_id", .str "h2"), ("url", .str "https://y")] rfl).1
  · exact ((claim_C3_update_webhook (fun _ => .connError) initSession
      "https://z" "ignored" .null .null
      [.obj [("url", .str "https://x"), ("hook_id", .str "h1")]]).2.2.2
      (by intro h2 hmem
          refine ⟨[("url", .str "https://x"), ("hook_id", .str "h1")],
            .str "https://x", ?_, rfl⟩
          simpa using hmem)).mpr
      (by intro h2 m2 hmem heq
          have : h2 = .obj [("url", .str "https://x"), ("hook_id", .str "h1")] := by
            simpa using hmem
          rw [this] at heq
          cases heq
          intro hcon
          simp at hcon)

lemma homesStep_ok {acc acc2 : PyDict} {home : JVal}
    (h : PointSession.homesStep acc home = .ok acc2) :
    acc2 = acc ∨ ∃ m idv, home = .obj m ∧
      (m.map (fun q => q.1)).contains "alarm_status" = true ∧
      m.lookup "home_id" = some idv ∧ idv.hashable = true ∧
      acc2 = pyInsert acc idv (.obj m) := by
  cases home with
  | obj m =>
    rw [PointSession.homesStep] at h
    simp only [JVal.keys] at h
    by_cases hc : (m.map (fun q => q.1)).contains "alarm_status" = true
    · rw [if_pos hc] at h
      cases hl : m.lookup "home_id" with
      | none =>
        simp only [JVal.sub, hl] at h
        cases h
      | some hid =>
        simp only [JVal.sub, hl] at h
        by_cases hh : hid.hashable = true
        · rw [if_pos hh] at h
          cases h
          right
          exact ⟨m, hid, rfl, hc, hl, hh, rfl⟩
        · rw [if_neg hh] at h
          cases h
    · rw [if_neg hc] at h
      cases h
      left
      rfl
  | null => simp [PointSession.homesStep, JVal.keys] at h
  | bool b => simp [PointSession.homesStep, JVal.keys] at h
  | num n => simp [PointSession.homesStep, JVal.keys] at h
  | str st => simp [PointSession.homesStep, JVal.keys] at h
  | arr xs => simp [PointSession.homesStep, JVal.keys] at h

lemma homes_fold_never (xs : List JVal) (acc res : PyDict)
    (hacc : ∀ p ∈ acc, ∃ m, p.2 = .obj m ∧
      (m.map (fun q => q.1)).contains "alarm_status" = true)
    (h : xs.foldlM PointSession.homesStep acc = .ok res) :
    ∀ p ∈ res, ∃ m, p.2 = .obj m ∧
      (m.map (fun q => q.1)).contains "alarm_status" = true := by
  induction xs generalizing acc with
  | nil =>
    simp only [List.foldlM_nil, Pure.pure, Except.pure] at h
    cases h
    exact hacc
  | cons x rest ih =>
    rw [List.foldlM_cons] at h
    cases hstep : PointSession.homesStep acc x with
    | error e => rw [hstep] at h; simp [Bind.bind, Except.bind] at h
    | ok acc2 =>
      rw [hstep] at h
      simp only [Bind.bind, Except.bind] at h
      refine ih acc2 ?_ h
      intro p hp
      rcases homesStep_ok hstep with heq | ⟨m, idv, hx, hc, hl, hh, heq⟩
      · subst heq
        exact hacc p hp
      · subst heq
        rcases mem_pyInsert hp with hin | hval
        · exact hacc p hin
        · exact ⟨m, hval, hc⟩

lemma homes_fold_eq (xs : List JVal) (acc : PyDict)
    (hobj : ∀ h2 ∈ xs, ∃ m, h2 = .obj m)
    (hidok : ∀ h2 m, h2 ∈ xs → h2 = .obj m →
      (m.map (fun q => q.1)).contains "alarm_status" = true →
      ∃ idv, m.lookup "home_id" = some idv ∧ idv.hashable = true)
    (hnodup : xs.Pairwise (fun a b => ∀ ma mb ka kb, a = .obj ma →
      b = .obj mb →
      (ma.map (fun q => q.1)).contains "alarm_status" = true →
      (mb.map (fun q => q.1)).contains "alarm_status" = true →
      ma.lookup "home_id" = some ka → mb.lookup "home_id" = some kb →
      jEq ka kb = false))
    (hfresh : ∀ p ∈ acc, ∀ h2 m k, h2 ∈ xs → h2 = .obj m →
      (m.map (fun q => q.1)).contains "alarm_status" = true →
      m.lookup "home_id" = some k → jEq p.1 k = false) :
    xs.foldlM PointSession.homesStep acc = .ok (acc ++ xs.filterMap (fun h2 =>
      if ((h2.keys).toOption.getD []).contains "alarm_status" = true
      then some ((h2.sub "home_id").toOption.getD .null, h2)
      else none)) := by
  induction xs generalizing acc with
  | nil => simp [List.foldlM_nil, Pure.pure, Except.pure]
  | cons x rest ih =>
    obtain ⟨m, rfl⟩ := hobj x (by simp)
    rw [List.foldlM_cons]
    have hpair := List.pairwise_cons.mp hnodup
    by_cases hc : (m.map (fun q => q.1)).contains "alarm_status" = true
    · obtain ⟨idv, hlk, hhash⟩ := hidok _ m (by simp) rfl hc
      have hstep : PointSession.homesStep acc (.obj m) = .ok (pyInsert acc idv (.obj m)) := by
        rw [PointSession.homesStep]
        simp only [JVal.keys]
        rw [if_pos hc]
        simp only [JVal.sub, hlk]
        rw [if_pos hhash]
      have hins : pyInsert acc idv (.obj m) = acc ++ [(idv, .obj m)] :=
        pyInsert_fresh _ (fun p hp => hfresh p hp _ m idv (by simp) rfl hc hlk)
      have hfresh2 : ∀ p ∈ acc ++ [(idv, .obj m)], ∀ h2 m2 k2, h2 ∈ rest →
          h2 = .obj m2 →
          (m2.map (fun q => q.1)).contains "alarm_status" = true →
          m2.lookup "home_id" = some k2 → jEq p.1 k2 = false := by
        intro p hp h2 m2 k2 hh2 he2 hc2 hl2
        rcases List.mem_append.mp hp with hin | hone
        · exact hfresh p hin h2 m2 k2 (List.mem_cons_of_mem _ hh2) he2 hc2 hl2
        · have hpe : p = (idv, .obj m) := by simpa using hone
          rw [hpe]
          exact hpair.1 h2 hh2 m m2 idv k2 rfl he2 hc hc2 hlk hl2
      have ihr := ih (acc ++ [(idv, .obj m)])
        (fun h2 hh2 => hobj h2 (List.mem_cons_of_mem _ hh2))
        (fun h2 m2 hh2 he2 hc2 => hidok h2 m2 (List.mem_cons_of_mem _ hh2) he2 hc2)
        hpair.2
        hfresh2
      rw [hstep]
      simp only [Bind.bind, Except.bind]
      rw [hins, ihr]
      have hFval : (if (((JVal.obj m).keys).toOption.getD []).contains
            "alarm_status" = true
          then some (((JVal.obj m).sub "home_id").toOption.getD JVal.null,
                     JVal.obj m)
          else none) = some (idv, JVal.obj m) := by
        rw [show (((JVal.obj m).keys).toOption.getD []) =
              m.map (fun p => p.1) from rfl]
        rw [if_pos hc]
        simp only [JVal.sub, hlk]
        rfl
      rw [List.filterMap_cons, hFval]
      simp [List.append_assoc]
    · have hstep : PointSession.homesStep acc (.obj m) = .ok acc := by
        rw [PointSession.homesStep]
        simp only [JVal.keys]
        rw [if_neg hc]
      have ihr := ih acc
        (fun h2 hh2 => hobj h2 (List.mem_cons_of_mem _ hh2))
        (fun h2 m2 hh2 he2 hc2 => hidok h2 m2 (List.mem_cons_of_mem _ hh2) he2 hc2)
        hpair.2
        (fun p hp h2 m2 k2 hh2 he2 hc2 hl2 =>
          hfresh p hp h2 m2 k2 (List.mem_cons_of_mem _ hh2) he2 hc2 hl2)
      rw [hstep]
      simp only [Bind.bind, Except.bind]
      rw [ihr]
      have hFval : (if (((JVal.obj m).keys).toOption.getD []).contains
            "alarm_status" = true
          then some (((JVal.obj m).sub "home_id").toOption.getD JVal.null,
                     JVal.obj m)
          else none) = none := by
        rw [show (((JVal.obj m).keys).toOption.getD []) =
              m.map (fun p => p.1) from rfl]
        rw [if_neg hc]
      rw [List.filterMap_cons, hFval]

/-- Claim C6, counterexample: a reachable home-cache content — a list
whose record carries `alarm_status` but no `home_id` — makes the `homes`
accessor raise KeyError instead of returning the filtered mapping. -/
theorem claim_C6_counterexample :
    PointSession.homes
      ⟨.obj [], [], .arr [.obj [("alarm_status", .str "on")]]⟩ =
      .error .keyError := rfl

/-- Claim C6 as amended: any mapping the accessor returns contains only
records carrying `alarm_status` (for every cache content, with no network
call possible — `homes` takes no transport); and when the cached list
consists of objects in which every `alarm_status`-carrying record also
carries a hashable `home_id`, distinct across records, the accessor
returns exactly those records keyed by `home_id`; but a record with
`alarm_status` and no `home_id` raises KeyError. -/
theorem claim_C6_homes_filter (s : SessionState) (hs : List JVal) :
    (∀ res, PointSession.homes s = .ok res →
      ∀ p ∈ res, ∃ m, p.2 = .obj m ∧
        (m.map (fun q => q.1)).contains "alarm_status" = true) ∧
    (s._homes = .arr hs →
      (∀ h2 ∈ hs, ∃ m, h2 = .obj m) →
      (∀ h2 m, h2 ∈ hs → h2 = .obj m →
        (m.map (fun q => q.1)).contains "alarm_status" = true →
        ∃ idv, m.lookup "home_id" = some idv ∧ idv.hashable = true) →
      hs.Pairwise (fun a b => ∀ ma mb ka kb, a = .obj ma → b = .obj mb →
        (ma.map (fun q => q.1)).contains "alarm_status" = true →
        (mb.map (fun q => q.1)).contains "alarm_status" = true →
        ma.lookup "home_id" = some ka → mb.lookup "home_id" = some kb →
        jEq ka kb = false) →
      PointSession.homes s = .ok (hs.filterMap (fun h2 =>
        if ((h2.keys).toOption.getD []).contains "alarm_status" = true
        then some ((h2.sub "home_id").toOption.getD .null, h2)
        else none))) := by
  constructor
  · intro res hres p hp
    rw [PointSession.homes] at hres
    cases hiter : s._homes.iter with
    | error e => rw [hiter] at hres; cases hres
    | ok xs =>
      rw [hiter] at hres
      exact homes_fold_never xs [] res (by simp) hres p hp
  · intro hhom hobj hidok hnodup
    rw [PointSession.homes, hhom]
    simp only [JVal.iter]
    rw [homes_fold_eq hs [] hobj hidok hnodup (by simp)]
    simp

/-- Witness for C6 as amended: a two-record cache where the second record
has no `alarm_status` — the accessor keeps exactly the first, keyed by
its `home_id`, and the membership conjunct applied to that result. -/
theorem claim_C6_homes_filter_witness :
    PointSession.homes ⟨.obj [], [],
      .arr [.obj [("home_id", .str "h1"), ("alarm_status", .str "on")],
            .obj [("home_id", .str "h2")]]⟩ =
      .ok [(.str "h1",
            .obj [("home_id", .str "h1"), ("alarm_status", .str "on")])] ∧
    (∃ m, (JVal.str "h1",
        JVal.obj [("home_id", .str "h1"), ("alarm_status", .str "on")]).2 =
        .obj m ∧ (m.map (fun q => q.1)).contains "alarm_status" = true) := by
  constructor
  · have h := (claim_C6_homes_filter
      ⟨.obj [], [],
        .arr [.obj [("home_id", .str "h1"), ("alarm_status", .str "on")],
              .obj [("home_id", .str "h2")]]⟩
      [.obj [("home_id", .str "h1"), ("alarm_status", .str "on")],
       .obj [("home_id", .str "h2")]]).2 rfl
      (by intro h2 hmem
          rcases List.mem_cons.mp hmem with hcase | hcase
          · exact ⟨[("home_id", .str "h1"), ("alarm_status", .str "on")], hcase⟩
          · exact ⟨[("home_id", .str "h2")], by simpa using hcase⟩)
      (by intro h2 m hmem heq hc
          rcases List.mem_cons.mp hmem with hcase | hcase
          · rw [hcase] at heq
            cases heq
            exact ⟨.str "h1", rfl, rfl⟩
          · have : h2 = .obj [("home_id", .str "h2")] := by simpa using hcase
            rw [this] at heq
            cases heq
            simp at hc)
      (by constructor
          · intro b hb ma mb ka kb ha hbeq hca hcb
            have : b = .obj [("home_id", .str "h2")] := by simpa using hb
            rw [this] at hbeq
            cases hbeq
            simp at hcb
          · simp)
    rw [h]
    rfl
  · have h2 := (claim_C6_homes_filter
      ⟨.obj [], [],
        .arr [.obj [("home_id", .str "h1"), ("alarm_status", .str "on")],
              .obj [("home_id", .str "h2")]]⟩ []).1
      [(.str "h1",
        .obj [("home_id", .str "h1"), ("alarm_status", .str "on")])]
      (by rfl)
      (.str "h1", .obj [("home_id", .str "h1"), ("alarm_status", .str "on")])
      (by simp)
    exact h2

lemma update_eq_of_error (t : Transport) (s : SessionState) (e : PyErr)
    (hreq : PointSession._request_devices t MINUT_DEVICES_URL "devices" =
      .error e) :
    PointSession.update t s = (s, [mkGet MINUT_DEVICES_URL], .error e) := by
  simp only [PointSession.update, hreq]

lemma update_eq_of_falsy (t : Transport) (s : SessionState) (ds : JVal)
    (hreq : PointSession._request_devices t MINUT_DEVICES_URL "devices" =
      .ok ds)
    (htrf : ds.truthy = false) :
    PointSession.update t s = (s, [mkGet MINUT_DEVICES_URL], .ok ds) := by
  simp only [PointSession.update, hreq, htrf]
  simp

lemma update_eq_of_bderr (t : Transport) (s : SessionState) (ds : JVal)
    (e : PyErr)
    (hreq : PointSession._request_devices t MINUT_DEVICES_URL "devices" =
      .ok ds)
    (htr : ds.truthy = true)
    (hbd : PointSession.buildDeviceMap ds = .error e) :
    PointSession.update t s = (s, [mkGet MINUT_DEVICES_URL], .error e) := by
  simp only [PointSession.update, hreq, htr, hbd]
  simp

lemma update_device_state_eq (t : Transport) (s : SessionState) (ds : JVal)
    (dmap : PyDict)
    (hreq : PointSession._request_devices t MINUT_DEVICES_URL "devices" =
      .ok ds)
    (htr : ds.truthy = true)
    (hbd : PointSession.buildDeviceMap ds = .ok dmap) :
    (PointSession.update t s).1._device_state = dmap := by
  simp only [PointSession.update, hreq, htr, hbd, if_true]
  cases hlog : PointSession.logDevicesCheck dmap with
  | error e => simp only [hlog]
  | ok u =>
    simp only [hlog]
    cases hh : PointSession._request_devices t MINUT_HOMES_URL "homes" with
    | error e => simp only [hh]
    | ok hs =>
      simp only [hh]
      by_cases hht : hs.truthy = true
      · simp only [hht, if_true]
        cases hlh : PointSession.logHomesCheck hs with
        | error e2 => simp only [hlh]
        | ok u2 => simp only [hlh]
      · have hhf : hs.truthy = false := by simpa using hht
        simp [hhf]

lemma deviceFold_ok (l : List JVal) (acc : PyDict)
    (hwf : ∀ d ∈ l, ∃ m idv, d = .obj m ∧
      m.lookup "device_id" = some idv ∧ idv.hashable = true) :
    ∃ res, l.foldlM PointSession.deviceStep acc = .ok res := by
  induction l generalizing acc with
  | nil => exact ⟨acc, rfl⟩
  | cons d rest ih =>
    obtain ⟨m, idv, rfl, hlk, hh⟩ := hwf d (by simp)
    have hstep : PointSession.deviceStep acc (.obj m) =
        .ok (pyInsert acc idv (.obj m)) := by
      rw [PointSession.deviceStep]
      simp only [JVal.sub, hlk]
      rw [if_pos hh]
    rw [List.foldlM_cons, hstep]
    simp only [Bind.bind, Except.bind]
    exact ih _ (fun d2 hd2 => hwf d2 (List.mem_cons_of_mem _ hd2))

/-- Claim C1: after any `update()` call the device cache is either exactly
the previous cache or exactly the dict comprehension built from the
fetched device list — never a mix; a failed fetch (raised error) and a
falsy fetch result leave the cache untouched; and a non-empty list of
well-formed device records is installed as exactly its comprehension. -/
theorem claim_C1_update_atomic (t : Transport) (s : SessionState) :
    ((PointSession.update t s).1._device_state = s._device_state ∨
      ∃ ds, PointSession._request_devices t MINUT_DEVICES_URL "devices" =
          .ok ds ∧
        PointSession.buildDeviceMap ds = .ok ((PointSession.update t s).1._device_state)) ∧
    (∀ e, PointSession._request_devices t MINUT_DEVICES_URL "devices" =
        .error e →
      (PointSession.update t s).1._device_state = s._device_state) ∧
    (∀ ds, PointSession._request_devices t MINUT_DEVICES_URL "devices" =
        .ok ds → ds.truthy = false →
      (PointSession.update t s).1._device_state = s._device_state) ∧
    (∀ l, PointSession._request_devices t MINUT_DEVICES_URL "devices" =
        .ok (.arr l) → l ≠ [] →
      (∀ d ∈ l, ∃ m idv, d = .obj m ∧
        m.lookup "device_id" = some idv ∧ idv.hashable = true) →
      PointSession.buildDeviceMap (.arr l) =
        .ok ((PointSession.update t s).1._device_state)) := by
  refine ⟨?_, ?_, ?_, ?_⟩
  · cases hreq : PointSession._request_devices t MINUT_DEVICES_URL "devices" with
    | error e =>
      left
      rw [update_eq_of_error t s e hreq]
    | ok ds =>
      by_cases htr : ds.truthy = true
      · cases hbd : PointSession.buildDeviceMap ds with
        | error e =>
          left
          rw [update_eq_of_bderr t s ds e hreq htr hbd]
        | ok dmap =>
          right
          exact ⟨ds, rfl, by
            rw [update_device_state_eq t s ds dmap hreq htr hbd]
            exact hbd⟩
      · left
        rw [update_eq_of_falsy t s ds hreq (by simpa using htr)]
  · intro e h
    rw [update_eq_of_error t s e h]
  · intro ds h htrf
    rw [update_eq_of_falsy t s ds h htrf]
  · intro l h hne hwf
    have htr : (JVal.arr l).truthy = true := by
      simp [JVal.truthy, hne]
    obtain ⟨res, hres⟩ := deviceFold_ok l [] hwf
    have hbd : PointSession.buildDeviceMap (.arr l) = .ok res := by
      rw [PointSession.buildDeviceMap]
      simp only [JVal.iter]
      exact hres
    rw [update_device_state_eq t s (.arr l) res h htr hbd]
    exact hbd

/-- Witness for C1: the spec's scenario — one well-formed device record
installs exactly its one-entry map — and a transport failure leaving the
initial cache empty. -/
theorem claim_C1_update_atomic_witness :
    PointSession.buildDeviceMap (.arr [.obj [("device_id", .str "abc123"),
        ("description", .str "dd")]]) =
      .ok [(.str "abc123",
            .obj [("device_id", .str "abc123"), ("description", .str "dd")])] ∧
    (PointSession.update (fun _ => .raise .clientResponseError)
      initSession).1._device_state = [] := by
  constructor
  · have h := (claim_C1_update_atomic
      (fun r => if r.url == MINUT_HOMES_URL
                then .ok (.obj [("homes",
                  .arr [.obj [("home_id", .str "h1"), ("name", .str "nn"),
                              ("alarm_status", .str "on")]])])
                else .ok (.obj [("devices",
                  .arr [.obj [("device_id", .str "abc123"),
                              ("description", .str "dd")]])]))
      initSession).2.2.2
      [.obj [("device_id", .str "abc123"), ("description", .str "dd")]]
      rfl (by simp)
      (by intro d hd
          refine ⟨[("device_id", .str "abc123"), ("description", .str "dd")],
            .str "abc123", by simpa using hd, rfl, rfl⟩)
    exact h
  · exact (claim_C1_update_atomic (fun _ => .raise .clientResponseError)
      initSession).2.1 .clientResponseError rfl

lemma update_homes_cases (t : Transport) (s : SessionState) :
    (PointSession.update t s).1._homes = s._homes ∨
    ∃ ds hs, PointSession._request_devices t MINUT_DEVICES_URL "devices" =
        .ok ds ∧ ds.truthy = true ∧
      PointSession._request_devices t MINUT_HOMES_URL "homes" = .ok hs ∧
      hs.truthy = true ∧ (PointSession.update t s).1._homes = hs := by
  cases hreq : PointSession._request_devices t MINUT_DEVICES_URL "devices" with
  | error e =>
    left
    rw [update_eq_of_error t s e hreq]
  | ok ds =>
    by_cases htr : ds.truthy = true
    · cases hbd : PointSession.buildDeviceMap ds with
      | error e =>
        left
        rw [update_eq_of_bderr t s ds e hreq htr hbd]
      | ok dmap =>
        simp only [PointSession.update, hreq, htr, hbd, if_true]
        cases hlog : PointSession.logDevicesCheck dmap with
        | error e =>
          left
          simp only [hlog]
        | ok u =>
          simp only [hlog]
          cases hh : PointSession._request_devices t MINUT_HOMES_URL "homes" with
          | error e =>
            left
            simp only [hh]
          | ok hs =>
            simp only [hh]
            by_cases hht : hs.truthy = true
            · right
              refine ⟨ds, hs, rfl, htr, rfl, hht, ?_⟩
              simp only [hht, if_true]
              cases hlh : PointSession.logHomesCheck hs with
              | error e2 => simp only [hlh]
              | ok u2 => simp only [hlh]
            · left
              have hhf : hs.truthy = false := by simpa using hht
              simp [hhf]
    · left
      rw [update_eq_of_falsy t s ds hreq (by simpa using htr)]

/-- Claim C8: the home cache changes only when the same call's devices
fetch returned a truthy result; a failed or falsy devices fetch leaves
the request log at just the devices GET (homes endpoint not contacted)
and the home cache unchanged; and a falsy homes fetch result also leaves
the home cache unchanged. -/
theorem claim_C8_homes_guard (t : Transport) (s : SessionState) :
    ((PointSession.update t s).1._homes ≠ s._homes →
      ∃ ds, PointSession._request_devices t MINUT_DEVICES_URL "devices" =
        .ok ds ∧ ds.truthy = true) ∧
    (∀ e, PointSession._request_devices t MINUT_DEVICES_URL "devices" =
        .error e →
      (PointSession.update t s).2.1 = [mkGet MINUT_DEVICES_URL] ∧
      (PointSession.update t s).1._homes = s._homes) ∧
    (∀ ds, PointSession._request_devices t MINUT_DEVICES_URL "devices" =
        .ok ds → ds.truthy = false →
      (PointSession.update t s).2.1 = [mkGet MINUT_DEVICES_URL] ∧
      (PointSession.update t s).1._homes = s._homes) ∧
    ((PointSession.update t s).1._homes = s._homes ∨
      ∃ hs, PointSession._request_devices t MINUT_HOMES_URL "homes" =
        .ok hs ∧ hs.truthy = true ∧ (PointSession.update t s).1._homes = hs) ∧
    (∀ hs, PointSession._request_devices t MINUT_HOMES_URL "homes" = .ok hs →
      hs.truthy = false →
      (PointSession.update t s).1._homes = s._homes) := by
  refine ⟨?_, ?_, ?_, ?_, ?_⟩
  · intro hne
    rcases update_homes_cases t s with heq | ⟨ds, hs, h1, h2, h3, h4, h5⟩
    · exact absurd heq hne
    · exact ⟨ds, h1, h2⟩
  · intro e h
    rw [update_eq_of_error t s e h]
    exact ⟨rfl, rfl⟩
  · intro ds h htrf
    rw [update_eq_of_falsy t s ds h htrf]
    exact ⟨rfl, rfl⟩
  · rcases update_homes_cases t s with heq | ⟨ds, hs, h1, h2, h3, h4, h5⟩
    · exact Or.inl heq
    · exact Or.inr ⟨hs, h3, h4, h5⟩
  · intro hs h htrf
    rcases update_homes_cases t s with heq | ⟨ds, hs2, h1, h2, h3, h4, h5⟩
    · exact heq
    · rw [h] at h3
      cases h3
      rw [htrf] at h4
      cases h4

/-- Witness for C8: a transport failure leaves the log at the devices
GET and the home cache empty; and with devices present but an empty
homes answer the home cache also stays empty. -/
theorem claim_C8_homes_guard_witness :
    ((PointSession.update (fun _ => .raise .clientResponseError)
        initSession).2.1 = [mkGet MINUT_DEVICES_URL] ∧
      (PointSession.update (fun _ => .raise .clientResponseError)
        initSession).1._homes = .obj []) ∧
    (PointSession.update
      (fun r => if r.url == MINUT_HOMES_URL
                then .ok (.obj [("homes", .arr [])])
                else .ok (.obj [("devices",
                  .arr [.obj [("device_id", .str "abc123"),
                              ("description", .str "dd")]])]))
      initSession).1._homes = .obj [] := by
  constructor
  · exact (claim_C8_homes_guard (fun _ => .raise .clientResponseError)
      initSession).2.1 .clientResponseError rfl
  · exact (claim_C8_homes_guard
      (fun r => if r.url == MINUT_HOMES_URL
                then .ok (.obj [("homes", .arr [])])
                else .ok (.obj [("devices",
                  .arr [.obj [("device_id", .str "abc123"),
                              ("description", .str "dd")]])]))
      initSession).2.2.2.2 (.arr []) rfl rfl
